import Mathlib

/-!
Shallow embedding of the `exam_finder` repository.

Two source files are embedded:
* `src/student_exam.py` — an authenticated student/exam service: bcrypt password
  hashing (via passlib), JWT issuance/verification (via python-jose), and the
  FastAPI handlers `register`, `login`, `get_current_student`, `my_exams`.
  The passlib and jose library calls are modelled from the spec (their code is
  not part of the repository); every handler and helper defined in the source
  file itself is translated line by line.
* `src/main.py` — a school CRUD service with students, courses and enrollments,
  where `enrollments` carries a `UniqueConstraint("student_id", "course_id")`.

Time is modelled as integer seconds since the epoch (`Int`), matching the
source's `int(now.timestamp())`.
-/

/-- An HTTP error response as raised by FastAPI's `HTTPException`:
status code, detail message, and extra headers. -/
structure HTTPError where
  status_code : Nat
  detail : String
  headers : List (String × String)
deriving DecidableEq, Repr

namespace StudentExam

/-! ### Credential Manager (bcrypt via passlib)

`pwd_context.hash` / `pwd_context.verify` are single delegated library calls
(`src/student_exam.py` lines 89-94); the library's code is not in the
repository, so the hash scheme is modelled symbolically from the spec. -/

/-- A stored hash string: either a well-formed encoded bcrypt hash — which, per
the spec, "must encode the salt/parameters within the returned string" — or a
malformed string that is not a valid encoded hash. -/
inductive HashString where
  | encoded (salt : Nat) (digest : String)
  | malformed (raw : String)
deriving DecidableEq, Repr

/-- Modelled from the spec: the bcrypt digest of a password under a given salt.
The one-way function is idealized symbolically; all that matters for the
contract is that the digest is a deterministic function of (salt, password)
and distinct passwords give distinct digests under the same salt. -/
def bcryptDigest (salt : Nat) (password : String) : String :=
  toString salt ++ ":" ++ password

/-- Modelled from the spec: `pwd_context.hash` "produces a salted hash ... and
must encode the salt/parameters within the returned string". The library picks
the salt at random; the model takes it as an explicit argument. -/
def pwd_context_hash (password : String) (salt : Nat) : HashString :=
  .encoded salt (bcryptDigest salt password)

/-- Modelled from the spec: `pwd_context.verify` "returns true iff the
plaintext, rehashed with the parameters embedded in hash_string, equals
hash_string. Never throws on malformed hash input ... a mismatch and a
malformed hash both yield false". -/
def pwd_context_verify (plain : String) (hashed : HashString) : Bool :=
  match hashed with
  | .malformed _ => false
  | .encoded salt digest => bcryptDigest salt plain == digest

/-- `src/student_exam.py` lines 89-90: `get_password_hash` delegates to
`pwd_context.hash`. -/
def get_password_hash (password : String) (salt : Nat) : HashString :=
  pwd_context_hash password salt

/-- `src/student_exam.py` lines 93-94: `verify_password` delegates to
`pwd_context.verify`. -/
def verify_password (plain_password : String) (hashed_password : HashString) : Bool :=
  pwd_context_verify plain_password hashed_password

/-! ### Token Service (JWT via python-jose) -/

/-- The decoded claims of a JWT as built by `create_access_token`:
`sub` (optional, a token may lack it), `iat`, `exp` (integer seconds). -/
structure JwtPayload where
  sub : Option String
  iat : Int
  exp : Int
deriving DecidableEq, Repr

/-- A token string, modelled symbolically: either a well-formed JWT carrying
its payload and the secret it was signed with (the symmetric signature
idealized as unforgeable), or unparseable garbage. -/
inductive JwtToken where
  | signed (payload : JwtPayload) (secret : String)
  | garbage (raw : String)
deriving DecidableEq, Repr

/-- The three verification error kinds of the spec's Token Service. -/
inductive JWTError where
  | invalidSignature
  | expired
  | malformed
deriving DecidableEq, Repr

/-- `src/student_exam.py` line 40: the process-wide secret. -/
def SECRET_KEY : String := "CHANGE_ME_TO_A_LONG_RANDOM_SECRET"

/-- `src/student_exam.py` line 42. -/
def ACCESS_TOKEN_EXPIRE_MINUTES : Int := 60

/-- Modelled from the spec: `jwt.encode` "serializes and signs it with the
given secret using a symmetric signature algorithm ... and returns the compact
signed representation". -/
def jwt_encode (payload : JwtPayload) (secret : String) : JwtToken :=
  .signed payload secret

/-- Modelled from the spec: `jwt.decode` "checks the signature against secret;
fails with InvalidSignature if tampered or signed with a different secret;
fails with Expired if current time ≥ expires_at; fails with Malformed if the
structure cannot be parsed". The subject checks are NOT here: in the source
they are performed by the caller `get_current_student` itself
(`payload.get("sub")` / `if email is None`), so the library model must not
absorb them. -/
def jwt_decode (token : JwtToken) (secret : String) (now : Int) :
    Except JWTError JwtPayload :=
  match token with
  | .garbage _ => .error .malformed
  | .signed payload sig =>
    if sig ≠ secret then .error .invalidSignature
    else if payload.exp ≤ now then .error .expired
    else .ok payload

/-- `src/student_exam.py` lines 97-104: build `{sub, iat, exp}` with
`exp = now + expires_minutes * 60` seconds and sign with `SECRET_KEY`.
`now` (wall-clock UTC at call time) is an explicit argument. -/
def create_access_token (subject : String) (expires_minutes : Int) (now : Int) :
    JwtToken :=
  jwt_encode { sub := some subject, iat := now, exp := now + 60 * expires_minutes }
    SECRET_KEY

/-! ### Persistence and handlers -/

/-- `src/student_exam.py` lines 51-58: the `students` table row. -/
structure Student where
  id : Nat
  name : String
  email : String
  hashed_password : HashString
  is_active : Bool
deriving DecidableEq, Repr

/-- The database state: the `students` table plus the autoincrement counter
for the integer primary key. -/
structure Db where
  students : List Student
  next_id : Nat
deriving DecidableEq, Repr

/-- `src/student_exam.py` lines 107-110: select the student whose email
matches, if any. -/
def get_student_by_email (db : Db) (email : String) : Option Student :=
  db.students.find? (fun s => s.email == email)

/-- `src/student_exam.py` lines 117-121: the single 401 response value raised
on every token-verification failure and on unknown subject. -/
def credentials_exception : HTTPError :=
  { status_code := 401
    detail := "Could not validate credentials"
    headers := [("WWW-Authenticate", "Bearer")] }

/-- `src/student_exam.py` lines 123-129: the token-verification phase of
`get_current_student`, before any account lookup — decode the token
(any `JWTError` becomes the 401 credentials exception), read `payload.get("sub")`,
and reject only when it is `None`. -/
def token_verify (token : JwtToken) (now : Int) : Except HTTPError String :=
  match jwt_decode token SECRET_KEY now with
  | .error _ => .error credentials_exception
  | .ok payload =>
    match payload.sub with
    | none => .error credentials_exception
    | some email => .ok email

/-- `src/student_exam.py` lines 113-135: verify the bearer token, then look the
account up by the returned subject; absent account is also the 401 credentials
exception. -/
def get_current_student (token : JwtToken) (now : Int) (db : Db) :
    Except HTTPError Student :=
  match token_verify token now with
  | .error e => .error e
  | .ok email =>
    match get_student_by_email db email with
    | none => .error credentials_exception
    | some student => .ok student

/-- `src/student_exam.py` lines 67-70: the registration request body. -/
structure StudentCreate where
  name : String
  email : String
  password : String
deriving DecidableEq, Repr

/-- `src/student_exam.py` lines 73-78: the public response model — id, name,
email only; no password-hash field exists in it. -/
structure StudentOut where
  id : Nat
  name : String
  email : String
deriving DecidableEq, Repr

/-- `src/student_exam.py` lines 157-160. -/
def duplicate_email_exception : HTTPError :=
  { status_code := 400, detail := "Email already registered", headers := [] }

/-- `src/student_exam.py` lines 150-172: reject if an account with the email
exists; otherwise persist a new `Student` with the hashed password and return
it serialized through `StudentOut` (the `response_model`). The bcrypt salt is
an explicit argument (the library picks it at random). -/
def register (payload : StudentCreate) (salt : Nat) (db : Db) :
    Except HTTPError (StudentOut × Db) :=
  match get_student_by_email db payload.email with
  | some _ => .error duplicate_email_exception
  | none =>
    let new_student : Student :=
      { id := db.next_id
        name := payload.name
        email := payload.email
        hashed_password := get_password_hash payload.password salt
        is_active := true }
    .ok ({ id := new_student.id, name := new_student.name, email := new_student.email },
         { students := db.students ++ [new_student], next_id := db.next_id + 1 })

/-- `src/student_exam.py` lines 81-83: the login success body. -/
structure TokenResponse where
  access_token : JwtToken
  token_type : String
deriving DecidableEq, Repr

/-- `src/student_exam.py` lines 185-189: the single 401 response raised both
for unknown email and for wrong password. -/
def login_exception : HTTPError :=
  { status_code := 401
    detail := "Incorrect email or password"
    headers := [("WWW-Authenticate", "Bearer")] }

/-- `src/student_exam.py` lines 175-196: look up by email; `if not student or
not verify_password(...)` raise the single unified 401; on success issue a
token for the account's email with the 60-minute expiry and return it with
token_type "bearer". -/
def login (username password : String) (now : Int) (db : Db) :
    Except HTTPError TokenResponse :=
  match get_student_by_email db username with
  | none => .error login_exception
  | some student =>
    if verify_password password student.hashed_password then
      .ok { access_token :=
              create_access_token student.email ACCESS_TOKEN_EXPIRE_MINUTES now
            token_type := "bearer" }
    else .error login_exception

/-- One entry of the dummy exam list in `src/student_exam.py` lines 213-226. -/
structure ExamEntry where
  course : String
  term : String
  date : String
  grade : String
deriving DecidableEq, Repr

/-- The response shape of `/me/exams` (`src/student_exam.py` lines 228-232). -/
structure ExamsResponse where
  student_id : Nat
  term : String
  exams : List ExamEntry
deriving DecidableEq, Repr

/-- `src/student_exam.py` lines 207-232: the handler depends only on the
`term` query parameter and the authenticated student; it takes no database
session and performs no query — the exam list is hard-coded dummy data with
the term echoed into each entry. -/
def my_exams (term : String) (current_student : Student) : ExamsResponse :=
  { student_id := current_student.id
    term := term
    exams :=
      [ { course := "Math 101", term := term, date := "2026-12-15", grade := "A" },
        { course := "History 201", term := term, date := "2026-12-18", grade := "B+" } ] }

end StudentExam

namespace SchoolApp

/-! ### `src/main.py`: students, courses, enrollments -/

/-- `src/main.py` lines 22-25: the `students` table row. -/
structure Student where
  id : Nat
  name : String
deriving DecidableEq, Repr

/-- `src/main.py` lines 28-33: the `courses` table row. -/
structure Course where
  id : Nat
  title : String
  description : String
  credits : Int
deriving DecidableEq, Repr

/-- `src/main.py` lines 36-44: the `enrollments` table row. The table carries
`UniqueConstraint("student_id", "course_id", name="uq_student_course")`. -/
structure Enrollment where
  id : Nat
  student_id : Nat
  course_id : Nat
deriving DecidableEq, Repr

/-- The database state: the three tables plus the autoincrement counters for
their integer primary keys. -/
structure DbState where
  students : List Student
  courses : List Course
  enrollments : List Enrollment
  next_student_id : Nat
  next_course_id : Nat
  next_enrollment_id : Nat
deriving DecidableEq, Repr

/-- `src/main.py` lines 69-71: the enrollment request body. -/
structure EnrollRequest where
  student_id : Nat
  course_id : Nat
deriving DecidableEq, Repr

/-- `session.get(Student, pk)`: fetch a student row by primary key. -/
def getStudent (st : DbState) (sid : Nat) : Option Student :=
  st.students.find? (fun s => s.id == sid)

/-- `session.get(Course, pk)`: fetch a course row by primary key. -/
def getCourse (st : DbState) (cid : Nat) : Option Course :=
  st.courses.find? (fun c => c.id == cid)

/-- Whether an enrollment row with this `(student_id, course_id)` pair is
already present — exactly the condition under which the `uq_student_course`
unique constraint makes `session.commit()` fail in `enroll`. -/
def hasEnrollment (st : DbState) (sid cid : Nat) : Bool :=
  st.enrollments.any (fun e => e.student_id == sid && e.course_id == cid)

/-- `src/main.py` lines 90-97: insert a new student. -/
def create_student (name : String) (st : DbState) : Student × DbState :=
  let s : Student := { id := st.next_student_id, name := name }
  (s, { st with students := st.students ++ [s]
                next_student_id := st.next_student_id + 1 })

/-- `src/main.py` lines 129-136: insert a new course (description defaults to
"", credits to 3). -/
def create_course (title : String) (st : DbState) : Course × DbState :=
  let c : Course := { id := st.next_course_id, title := title
                      description := "", credits := 3 }
  (c, { st with courses := st.courses ++ [c]
                next_course_id := st.next_course_id + 1 })

/-- `src/main.py` lines 116-124: delete a student by primary key (no cascade:
enrollment rows are untouched). The handler result is paired with the state
after the request. -/
def delete_student (sid : Nat) (st : DbState) :
    (Except HTTPError Nat) × DbState :=
  match getStudent st sid with
  | none => (.error { status_code := 404, detail := "Student not found", headers := [] }, st)
  | some _ =>
    (.ok sid, { st with students := st.students.filter (fun t => t.id ≠ sid) })

/-- The success body of `enroll`: `{enrolled: true, student_id, course_id}`. -/
structure EnrollResponse where
  enrolled : Bool
  student_id : Nat
  course_id : Nat
deriving DecidableEq, Repr

/-- `src/main.py` lines 147-168: 404 if the student or the course is absent;
otherwise insert the enrollment row and commit. The commit raises exactly when
the `uq_student_course` unique constraint is violated (both foreign keys are
known to resolve at this point), in which case the session is rolled back —
the state is returned unchanged — and a 400 "Already enrolled (or invalid)"
is raised. The handler result is paired with the state after the request. -/
def enroll (req : EnrollRequest) (st : DbState) :
    (Except HTTPError EnrollResponse) × DbState :=
  match getStudent st req.student_id with
  | none => (.error { status_code := 404, detail := "Student not found", headers := [] }, st)
  | some _ =>
    match getCourse st req.course_id with
    | none => (.error { status_code := 404, detail := "Course not found", headers := [] }, st)
    | some _ =>
      if hasEnrollment st req.student_id req.course_id then
        (.error { status_code := 400, detail := "Already enrolled (or invalid)", headers := [] }, st)
      else
        (.ok { enrolled := true, student_id := req.student_id, course_id := req.course_id },
         { st with
             enrollments :=
               st.enrollments ++
                 [{ id := st.next_enrollment_id
                    student_id := req.student_id
                    course_id := req.course_id }]
             next_enrollment_id := st.next_enrollment_id + 1 })

/-- The empty database `school.db` starts with (SQLite integer primary keys
start at 1). -/
def initialState : DbState :=
  { students := [], courses := [], enrollments := []
    next_student_id := 1, next_course_id := 1, next_enrollment_id := 1 }

/-- The states reachable from the empty database through the state-changing
handlers of `src/main.py` (the remaining endpoints are read-only). -/
inductive Reachable : DbState → Prop where
  | init : Reachable initialState
  | createStudent (name : String) (st : DbState) :
      Reachable st → Reachable (create_student name st).2
  | createCourse (title : String) (st : DbState) :
      Reachable st → Reachable (create_course title st).2
  | deleteStudent (sid : Nat) (st : DbState) :
      Reachable st → Reachable (delete_student sid st).2
  | enrollStep (req : EnrollRequest) (st : DbState) :
      Reachable st → Reachable (enroll req st).2

/-- The `uq_student_course` invariant: no two enrollment rows share the same
`(student_id, course_id)` pair. -/
def EnrollUnique (st : DbState) : Prop :=
  st.enrollments.Pairwise
    (fun a b => ¬ (a.student_id = b.student_id ∧ a.course_id = b.course_id))

end SchoolApp

namespace StudentExam

/-- C1: for every subject string and every positive ttl, issuing a token with
`create_access_token(subject, ttl)` and immediately verifying it (the
pre-lookup verification phase of `get_current_student`, with the same secret
`SECRET_KEY`) succeeds and returns exactly the original subject string. -/
theorem issue_then_verify_roundtrip (subject : String) (ttl now : Int)
    (h : 0 < ttl) :
    token_verify (create_access_token subject ttl now) now = Except.ok subject := by
  have hexp : ¬ (now + 60 * ttl ≤ now) := by omega
  simp [token_verify, create_access_token, jwt_encode, jwt_decode, hexp]

/-- Witness for C1: a token for "a@x.com" with a 60-minute ttl, issued and
verified at time 0, yields "a@x.com". -/
theorem issue_then_verify_roundtrip_witness :
    token_verify (create_access_token "a@x.com" 60 0) 0 = Except.ok "a@x.com" :=
  issue_then_verify_roundtrip "a@x.com" 60 0 (by decide)

/-- C2: for every plaintext password `p` and salt,
`verify_password p (get_password_hash p salt)` returns true. -/
theorem verify_password_of_hash (p : String) (salt : Nat) :
    verify_password p (get_password_hash p salt) = true := by
  simp [verify_password, get_password_hash, pwd_context_verify, pwd_context_hash]

/-- C3: credential verification is a total boolean function — it returns
`false` on every malformed hash string, and `false` on every mismatching
digest, without throwing. -/
theorem verify_password_false_on_malformed :
    (∀ p raw, verify_password p (HashString.malformed raw) = false) ∧
    (∀ p salt digest, digest ≠ bcryptDigest salt p →
      verify_password p (HashString.encoded salt digest) = false) := by
  constructor
  · intro p raw
    rfl
  · intro p salt digest hne
    simp [verify_password, pwd_context_verify]
    exact fun hcontra => hne hcontra.symm

/-- Witness for C3: a malformed hash and a mismatching digest both yield
false for the password "secret123". -/
theorem verify_password_false_on_malformed_witness :
    verify_password "secret123" (HashString.malformed "nonsense") = false ∧
    verify_password "secret123" (HashString.encoded 7 "7:other") = false :=
  ⟨verify_password_false_on_malformed.1 "secret123" "nonsense",
   verify_password_false_on_malformed.2 "secret123" 7 "7:other" (by decide)⟩

/-- C4 counterexample: a well-signed, unexpired token whose `sub` claim is the
empty string PASSES the pre-lookup verification phase and returns the empty
subject — the source checks only `if email is None`, so the empty string is
not rejected before the account lookup, contrary to the claim. -/
theorem empty_subject_passes_verification :
    token_verify (jwt_encode { sub := some "", iat := 0, exp := 100 } SECRET_KEY) 0 =
      Except.ok "" := by rfl

/-- C4 amended: the pre-lookup verification phase of `get_current_student`
raises the 401 credentials exception exactly for unparseable tokens, wrong
signatures, expired tokens, and a MISSING `sub` claim; a well-signed unexpired
token whose `sub` is present — including the empty string — passes
verification and returns that subject unchanged, the empty-subject case being
rejected only afterwards at account lookup. -/
theorem token_verify_cases (payload : JwtPayload) (now : Int) :
    (∀ raw, token_verify (JwtToken.garbage raw) now =
        Except.error credentials_exception) ∧
    (∀ secret, secret ≠ SECRET_KEY →
        token_verify (JwtToken.signed payload secret) now =
          Except.error credentials_exception) ∧
    (payload.exp ≤ now →
        token_verify (JwtToken.signed payload SECRET_KEY) now =
          Except.error credentials_exception) ∧
    (payload.sub = none →
        token_verify (JwtToken.signed payload SECRET_KEY) now =
          Except.error credentials_exception) ∧
    (∀ s, payload.sub = some s → now < payload.exp →
        token_verify (JwtToken.signed payload SECRET_KEY) now = Except.ok s) := by
  refine ⟨?_, ?_, ?_, ?_, ?_⟩
  · intro raw
    rfl
  · intro secret hne
    simp [token_verify, jwt_decode, hne]
  · intro hexp
    simp [token_verify, jwt_decode, hexp]
  · intro hsub
    by_cases hexp : payload.exp ≤ now
    · simp [token_verify, jwt_decode, hexp]
    · simp [token_verify, jwt_decode, hexp, hsub]
  · intro s hsub hlt
    have hexp : ¬ (payload.exp ≤ now) := by omega
    simp [token_verify, jwt_decode, hexp, hsub]

/-- Witness for C4 amended: a token with subject "x" and expiry 100 verifies
at time 99 and is rejected at time 100. -/
theorem token_verify_cases_witness :
    token_verify (JwtToken.signed { sub := some "x", iat := 0, exp := 100 } SECRET_KEY) 99 =
      Except.ok "x" ∧
    token_verify (JwtToken.signed { sub := some "x", iat := 0, exp := 100 } SECRET_KEY) 100 =
      Except.error credentials_exception :=
  ⟨(token_verify_cases { sub := some "x", iat := 0, exp := 100 } 99).2.2.2.2 "x" rfl (by decide),
   (token_verify_cases { sub := some "x", iat := 0, exp := 100 } 100).2.2.1 (by decide)⟩

/-- C5: under the spec-modelled expiry comparison, decoding a well-signed
token fails with the `Expired` kind exactly when the current time is ≥ the
embedded `exp`; the token is accepted while the current time is strictly
before `exp`; and a token issued with ttl = -1 (whose `exp` lies 60 seconds in
the past) always fails as `Expired` at any verification time ≥ its issue
time. -/
theorem expired_exactly_when_now_ge_exp (payload : JwtPayload) (now : Int) :
    (jwt_decode (jwt_encode payload SECRET_KEY) SECRET_KEY now =
        Except.error JWTError.expired ↔ payload.exp ≤ now) ∧
    (now < payload.exp →
      jwt_decode (jwt_encode payload SECRET_KEY) SECRET_KEY now = Except.ok payload) ∧
    (∀ subject now0 now1, now0 ≤ now1 →
      jwt_decode (create_access_token subject (-1) now0) SECRET_KEY now1 =
        Except.error JWTError.expired) := by
  refine ⟨?_, ?_, ?_⟩
  · by_cases h : payload.exp ≤ now
    · simp [jwt_decode, jwt_encode, h]
    · simp [jwt_decode, jwt_encode, h]
  · intro h
    have h2 : ¬ (payload.exp ≤ now) := by omega
    simp [jwt_decode, jwt_encode, h2]
  · intro subject now0 now1 h
    simp [jwt_decode, jwt_encode, create_access_token]
    omega

/-- Witness for C5: a token with expiry 50 decodes at time 10; a token issued
at time 0 with ttl -1 is Expired when verified at time 0. -/
theorem expired_exactly_when_now_ge_exp_witness :
    jwt_decode (jwt_encode { sub := some "a", iat := 0, exp := 50 } SECRET_KEY)
        SECRET_KEY 10 = Except.ok { sub := some "a", iat := 0, exp := 50 } ∧
    jwt_decode (create_access_token "a" (-1) 0) SECRET_KEY 0 =
      Except.error JWTError.expired :=
  ⟨(expired_exactly_when_now_ge_exp { sub := some "a", iat := 0, exp := 50 } 10).2.1
      (by decide),
   (expired_exactly_when_now_ge_exp { sub := some "a", iat := 0, exp := 50 } 10).2.2
      "a" 0 0 (by decide)⟩

/-- Helper: the email lookup returns nothing exactly when no persisted student
has that email. -/
theorem get_student_by_email_eq_none_iff (db : Db) (email : String) :
    get_student_by_email db email = none ↔ ∀ s ∈ db.students, s.email ≠ email := by
  simp [get_student_by_email, List.find?_eq_none]

/-- C6: registration rejects with the 400 "Email already registered" failure
exactly when an account with the given email is already persisted; otherwise
it persists a new Student carrying the hashed password and returns only the
public fields id, name, email (the `StudentOut` type has no hash field). -/
theorem register_spec (payload : StudentCreate) (salt : Nat) (db : Db) :
    ((∃ s ∈ db.students, s.email = payload.email) →
      register payload salt db = Except.error duplicate_email_exception) ∧
    ((∀ s ∈ db.students, s.email ≠ payload.email) →
      register payload salt db =
        Except.ok
          ({ id := db.next_id, name := payload.name, email := payload.email },
           { students := db.students ++
               [{ id := db.next_id, name := payload.name, email := payload.email,
                  hashed_password := get_password_hash payload.password salt,
                  is_active := true }]
             next_id := db.next_id + 1 })) := by
  constructor
  · rintro ⟨s, hs, he⟩
    cases hmatch : get_student_by_email db payload.email with
    | none =>
      exact absurd he ((get_student_by_email_eq_none_iff db payload.email).1 hmatch s hs)
    | some t => simp [register, hmatch]
  · intro hall
    have hnone : get_student_by_email db payload.email = none :=
      (get_student_by_email_eq_none_iff db payload.email).2 hall
    simp [register, hnone]

/-- Witness for C6: registering Ana into the empty store succeeds and returns
only the public fields; registering the same email again fails with the 400
duplicate error. -/
theorem register_spec_witness :
    register { name := "Ana", email := "a@x.com", password := "secret123" } 5
        { students := [], next_id := 1 } =
      Except.ok
        ({ id := 1, name := "Ana", email := "a@x.com" },
         { students := [{ id := 1, name := "Ana", email := "a@x.com",
                          hashed_password := get_password_hash "secret123" 5,
                          is_active := true }]
           next_id := 2 }) ∧
    register { name := "Ana", email := "a@x.com", password := "secret123" } 6
        { students := [{ id := 1, name := "Ana", email := "a@x.com",
                         hashed_password := get_password_hash "secret123" 5,
                         is_active := true }]
          next_id := 2 } =
      Except.error duplicate_email_exception := by
  constructor
  · exact (register_spec { name := "Ana", email := "a@x.com", password := "secret123" } 5
      { students := [], next_id := 1 }).2 (by simp)
  · exact (register_spec { name := "Ana", email := "a@x.com", password := "secret123" } 6
      _).1 ⟨_, List.mem_singleton.2 rfl, rfl⟩

/-- C7: the login handler's two failure causes are indistinguishable — an
unknown email and a known email with a wrong password yield the identical
response, the single 401 "Incorrect email or password" value; on success it
returns the bearer token issued for the account's email with the 60-minute
expiry. -/
theorem login_uniform_failure (u1 p1 u2 p2 : String) (now : Int) (db : Db) :
    (get_student_by_email db u1 = none →
      login u1 p1 now db = Except.error login_exception) ∧
    (∀ s, get_student_by_email db u2 = some s →
      verify_password p2 s.hashed_password = false →
      login u2 p2 now db = Except.error login_exception) ∧
    (get_student_by_email db u1 = none →
      ∀ s, get_student_by_email db u2 = some s →
      verify_password p2 s.hashed_password = false →
      login u1 p1 now db = login u2 p2 now db) ∧
    (∀ s, get_student_by_email db u1 = some s →
      verify_password p1 s.hashed_password = true →
      login u1 p1 now db =
        Except.ok { access_token := create_access_token s.email 60 now,
                    token_type := "bearer" }) := by
  refine ⟨?_, ?_, ?_, ?_⟩
  · intro h
    simp [login, h]
  · intro s hs hv
    simp [login, hs, hv]
  · intro h1 s hs hv
    simp [login, h1, hs, hv]
  · intro s hs hv
    simp [login, hs, hv, ACCESS_TOKEN_EXPIRE_MINUTES]

/-- Witness for C7: against a store holding only Ana, logging in with an
unknown email and logging in with Ana's email but a wrong password produce the
same response; the correct password yields the bearer token. -/
theorem login_uniform_failure_witness :
    login "ghost@x.com" "whatever" 0
        { students := [{ id := 1, name := "Ana", email := "a@x.com",
                         hashed_password := get_password_hash "secret123" 5,
                         is_active := true }]
          next_id := 2 } =
      login "a@x.com" "wrong" 0
        { students := [{ id := 1, name := "Ana", email := "a@x.com",
                         hashed_password := get_password_hash "secret123" 5,
                         is_active := true }]
          next_id := 2 } ∧
    login "a@x.com" "secret123" 0
        { students := [{ id := 1, name := "Ana", email := "a@x.com",
                         hashed_password := get_password_hash "secret123" 5,
                         is_active := true }]
          next_id := 2 } =
      Except.ok { access_token := create_access_token "a@x.com" 60 0,
                  token_type := "bearer" } := by
  constructor
  · exact (login_uniform_failure "ghost@x.com" "whatever" "a@x.com" "wrong" 0
      { students := [{ id := 1, name := "Ana", email := "a@x.com",
                       hashed_password := get_password_hash "secret123" 5,
                       is_active := true }]
        next_id := 2 }).2.2.1 (by decide)
      { id := 1, name := "Ana", email := "a@x.com",
        hashed_password := get_password_hash "secret123" 5, is_active := true }
      (by decide) (by decide)
  · exact (login_uniform_failure "a@x.com" "secret123" "" "" 0
      { students := [{ id := 1, name := "Ana", email := "a@x.com",
                       hashed_password := get_password_hash "secret123" 5,
                       is_active := true }]
        next_id := 2 }).2.2.2
      { id := 1, name := "Ana", email := "a@x.com",
        hashed_password := get_password_hash "secret123" 5, is_active := true }
      (by decide) (by decide)

/-- C8: every token-verification failure of `get_current_student` — garbage
token, wrong secret, expired token, missing sub — and the case of a valid
token whose subject matches no persisted account all produce the identical
outcome, the 401 credentials exception with the WWW-Authenticate Bearer
challenge header; none of them returns an Account. -/
theorem protected_route_uniform_unauthorized (payload : JwtPayload) (now : Int)
    (db : Db) :
    credentials_exception =
      { status_code := 401, detail := "Could not validate credentials",
        headers := [("WWW-Authenticate", "Bearer")] } ∧
    (∀ raw, get_current_student (JwtToken.garbage raw) now db =
        Except.error credentials_exception) ∧
    (∀ secret, secret ≠ SECRET_KEY →
        get_current_student (JwtToken.signed payload secret) now db =
          Except.error credentials_exception) ∧
    (payload.exp ≤ now →
        get_current_student (JwtToken.signed payload SECRET_KEY) now db =
          Except.error credentials_exception) ∧
    (payload.sub = none →
        get_current_student (JwtToken.signed payload SECRET_KEY) now db =
          Except.error credentials_exception) ∧
    (∀ e, payload.sub = some e → get_student_by_email db e = none →
        get_current_student (JwtToken.signed payload SECRET_KEY) now db =
          Except.error credentials_exception) := by
  refine ⟨rfl, ?_, ?_, ?_, ?_, ?_⟩
  · intro raw
    rfl
  · intro secret hne
    simp [get_current_student, token_verify, jwt_decode, hne]
  · intro hexp
    simp [get_current_student, token_verify, jwt_decode, hexp]
  · intro hsub
    by_cases hexp : payload.exp ≤ now
    · simp [get_current_student, token_verify, jwt_decode, hexp]
    · simp [get_current_student, token_verify, jwt_decode, hexp, hsub]
  · intro e hsub hfind
    by_cases hexp : payload.exp ≤ now
    · simp [get_current_student, token_verify, jwt_decode, hexp]
    · simp [get_current_student, token_verify, jwt_decode, hexp, hsub, hfind]

/-- Witness for C8: against a store holding only Ana, a token signed with a
different secret and a well-signed token for an unknown subject both yield the
401 credentials exception. -/
theorem protected_route_uniform_unauthorized_witness :
    get_current_student
        (JwtToken.signed { sub := some "a@x.com", iat := 0, exp := 100 } "other")
        0
        { students := [{ id := 1, name := "Ana", email := "a@x.com",
                         hashed_password := get_password_hash "secret123" 5,
                         is_active := true }]
          next_id := 2 } =
      Except.error credentials_exception ∧
    get_current_student
        (JwtToken.signed { sub := some "ghost@x.com", iat := 0, exp := 100 } SECRET_KEY)
        0
        { students := [{ id := 1, name := "Ana", email := "a@x.com",
                         hashed_password := get_password_hash "secret123" 5,
                         is_active := true }]
          next_id := 2 } =
      Except.error credentials_exception := by
  constructor
  · exact (protected_route_uniform_unauthorized
      { sub := some "a@x.com", iat := 0, exp := 100 } 0
      { students := [{ id := 1, name := "Ana", email := "a@x.com",
                       hashed_password := get_password_hash "secret123" 5,
                       is_active := true }]
        next_id := 2 }).2.2.1 "other" (by decide)
  · exact (protected_route_uniform_unauthorized
      { sub := some "ghost@x.com", iat := 0, exp := 100 } 0
      { students := [{ id := 1, name := "Ana", email := "a@x.com",
                       hashed_password := get_password_hash "secret123" 5,
                       is_active := true }]
        next_id := 2 }).2.2.2.2.2 "ghost@x.com" rfl (by decide)

/-- C10: the `/me/exams` handler takes no database state at all — it returns
the fixed two-entry exam list (Math 101 on 2026-12-15 grade A, History 201 on
2026-12-18 grade B+, with the term echoed into each entry) for every
authenticated student; only the caller's account id and the echoed term vary
between responses. -/
theorem my_exams_fixed (term : String) (s : Student) :
    my_exams term s =
      { student_id := s.id
        term := term
        exams :=
          [ { course := "Math 101", term := term, date := "2026-12-15", grade := "A" },
            { course := "History 201", term := term, date := "2026-12-18", grade := "B+" } ] } ∧
    (∀ s2 : Student, (my_exams term s2).exams = (my_exams term s).exams) :=
  ⟨rfl, fun _ => rfl⟩

end StudentExam

namespace SchoolApp

/-- Helper: `hasEnrollment` is false exactly when no persisted enrollment row
carries the given `(student_id, course_id)` pair. -/
theorem hasEnrollment_eq_false_iff (st : DbState) (sid cid : Nat) :
    hasEnrollment st sid cid = false ↔
      ∀ e ∈ st.enrollments, ¬ (e.student_id = sid ∧ e.course_id = cid) := by
  rw [← Bool.not_eq_true, hasEnrollment]
  simp [List.any_eq_true]

/-- C9: the enroll handler is atomic on the duplicate error — when student and
course exist but an enrollment row with the same `(student_id, course_id)`
pair is already present, it answers 400 "Already enrolled (or invalid)" and
leaves the state exactly as it was — and consequently every database state
reachable through the handlers satisfies the `uq_student_course` uniqueness
invariant. -/
theorem enroll_atomic_and_unique :
    (∀ (req : EnrollRequest) (st : DbState),
      (getStudent st req.student_id).isSome = true →
      (getCourse st req.course_id).isSome = true →
      hasEnrollment st req.student_id req.course_id = true →
      enroll req st =
        (Except.error { status_code := 400, detail := "Already enrolled (or invalid)",
                        headers := [] }, st)) ∧
    (∀ st : DbState, Reachable st → EnrollUnique st) := by
  constructor
  · intro req st hs hc hdup
    cases hst : getStudent st req.student_id with
    | none => rw [hst] at hs; simp at hs
    | some s =>
      cases hct : getCourse st req.course_id with
      | none => rw [hct] at hc; simp at hc
      | some c => simp [enroll, hst, hct, hdup]
  · intro st hr
    induction hr with
    | init => simp [EnrollUnique, initialState]
    | createStudent name st _ ih => simpa [EnrollUnique, create_student] using ih
    | createCourse title st _ ih => simpa [EnrollUnique, create_course] using ih
    | deleteStudent sid st _ ih =>
      cases hst : getStudent st sid with
      | none => simpa [EnrollUnique, delete_student, hst] using ih
      | some s => simpa [EnrollUnique, delete_student, hst] using ih
    | enrollStep req st _ ih =>
      cases hst : getStudent st req.student_id with
      | none => simpa [EnrollUnique, enroll, hst] using ih
      | some s =>
        cases hct : getCourse st req.course_id with
        | none => simpa [EnrollUnique, enroll, hst, hct] using ih
        | some c =>
          cases hdup : hasEnrollment st req.student_id req.course_id with
          | true => simpa [EnrollUnique, enroll, hst, hct, hdup] using ih
          | false =>
            have hfresh := (hasEnrollment_eq_false_iff st req.student_id req.course_id).1 hdup
            simp only [EnrollUnique, enroll, hst, hct, hdup, Bool.false_eq_true,
              if_false, List.pairwise_append, List.pairwise_singleton,
              List.mem_singleton]
            refine ⟨ih, trivial, ?_⟩
            intro a ha b hb
            subst hb
            exact hfresh a ha

/-- Witness for C9: in a state with Ana, one course, and Ana already enrolled
in it, enrolling again answers 400 and leaves the state unchanged; and the
initial empty state satisfies the uniqueness invariant. -/
theorem enroll_atomic_and_unique_witness :
    enroll { student_id := 1, course_id := 1 }
        { students := [{ id := 1, name := "Ana" }]
          courses := [{ id := 1, title := "Math", description := "", credits := 3 }]
          enrollments := [{ id := 1, student_id := 1, course_id := 1 }]
          next_student_id := 2, next_course_id := 2, next_enrollment_id := 2 } =
      (Except.error { status_code := 400, detail := "Already enrolled (or invalid)",
                      headers := [] },
       { students := [{ id := 1, name := "Ana" }]
         courses := [{ id := 1, title := "Math", description := "", credits := 3 }]
         enrollments := [{ id := 1, student_id := 1, course_id := 1 }]
         next_student_id := 2, next_course_id := 2, next_enrollment_id := 2 }) ∧
    EnrollUnique initialState :=
  ⟨enroll_atomic_and_unique.1 { student_id := 1, course_id := 1 }
      { students := [{ id := 1, name := "Ana" }]
        courses := [{ id := 1, title := "Math", description := "", credits := 3 }]
        enrollments := [{ id := 1, student_id := 1, course_id := 1 }]
        next_student_id := 2, next_course_id := 2, next_enrollment_id := 2 }
      (by decide) (by decide) (by decide),
   enroll_atomic_and_unique.2 initialState Reachable.init⟩

end SchoolApp
